import Mathlib

/-
Verification of the gopherlua-debugger session facade (facade.go and the
Connect entry point). The Go code is shallowly embedded: each facade method
becomes a pure Lean function from an explicit state (plus oracles for the
external Transport collaborator) to a result record that carries the new
state together with the observable effects (Lua stack pushes, Lua errors,
channel sends, condition-variable operations, transport calls).
-/

namespace GopherluaDebugger

/- Proto command ids. Modelled from the spec: the proto package is not part
of the sources here; the spec fixes only that every message carries a numeric
command id used for dispatch, with the eight message kinds listed in its
protocol taxonomy. The concrete values below are representative and pairwise
distinct, which is all the dispatch logic depends on. -/
def MsgIdInitReq : Nat := 1
def MsgIdReadyReq : Nat := 2
def MsgIdAddBreakPointReq : Nat := 3
def MsgIdRemoveBreakPointReq : Nat := 4
def MsgIdActionReq : Nat := 5
def MsgIdEvalReq : Nat := 6
def MsgIdBreakNotify : Nat := 7
def MsgIdEvalRsp : Nat := 8

/-- The Transport collaborator as seen from the facade: `TcpConnect` stores a
fresh value and installs the message handler; `Close` marks it closed. -/
structure Transport where
  handlerInstalled : Bool
  closed : Bool
deriving DecidableEq, Repr

/-- A Lua value as pushed onto the calling interpreter's stack by Connect. -/
inductive LValue
  | ltrue
  | lfalse
  | lstring (s : String)
deriving DecidableEq, Repr

/-- The mutable fields of the Go Facade struct that the claims concern.
Attached interpreter handles (the Go map keyed by LState pointers) are
modelled as an optional list of handle ids; `none` models the nil map that
Close leaves behind. -/
structure Facade where
  t : Option Transport
  isWaitingForIDE : Bool
  isIDEReady : Bool
  helperCode : String
  states : Option (List Nat)
deriving DecidableEq, Repr

/-- newFacade: fresh facade with an empty (non-nil) attached-state map and no
transport. -/
def newFacade : Facade :=
  { t := none, isWaitingForIDE := false, isIDEReady := false
    helperCode := "", states := some [] }

/-- Go map assignment on the attached-state map. Assignment on a nil map
panics in Go; that path is never reached from a live facade, and the model
leaves a nil map unchanged. -/
def statesInsert (s : Option (List Nat)) (L : Nat) : Option (List Nat) :=
  match s with
  | some l => some (if L ∈ l then l else l ++ [L])
  | none => none

/-- One step of the WaiteIDE trace: flag writes, mutex operations, the
condition-variable wait, and the send on the done channel. -/
inductive WEvent
  | setWaiting (b : Bool)
  | lock
  | condWait
  | unlock
  | sendDone
deriving DecidableEq, BEq, Repr

/-- Facade.WaiteIDE as the trace of operations it performs. The guarded
branch (transport present, force set, not already waiting, not already
ready) marks the waiting flag, blocks in cond.Wait under the mutex, and
clears the flag after waking; every path then sends exactly one value on
the done channel. -/
def WaiteIDE (f : Facade) (force : Bool) : List WEvent :=
  if f.t.isSome && force && !f.isWaitingForIDE && !f.isIDEReady then
    [WEvent.setWaiting true, WEvent.lock, WEvent.condWait,
     WEvent.unlock, WEvent.setWaiting false, WEvent.sendDone]
  else
    [WEvent.sendDone]

/-- Result of Facade.TcpConnect: the facade state afterwards, the list of
LuaError messages raised on the interpreter, the returned error, how many
times the transport connect was attempted, and whether the WaiteIDE path
was reached. -/
structure TcpConnectResult where
  facade : Facade
  luaErrors : List String
  err : Option String
  connectAttempts : Nat
  waited : Bool
deriving DecidableEq, Repr

/-- Facade.TcpConnect: registers the calling interpreter handle in the
attached-state map and installs a fresh transport (with the message handler
set) before attempting the network connection, whose outcome is the oracle
`connectErr` (`none` means the dial succeeded). On failure it raises a
LuaError and returns the error; on success it spawns the cancellation
watcher and blocks in WaiteIDE. -/
def TcpConnect (f : Facade) (L : Nat) (connectErr : Option String) :
    TcpConnectResult :=
  let f1 : Facade :=
    { f with
      states := statesInsert f.states L
      t := some { handlerInstalled := true, closed := false } }
  match connectErr with
  | some e =>
      { facade := f1, luaErrors := [e], err := some e
        connectAttempts := 1, waited := false }
  | none =>
      { facade := f1, luaErrors := [], err := none
        connectAttempts := 1, waited := true }

/-- Result of Facade.Connect: value of the process-wide openConn guard after
the call, facade state, the values pushed on the Lua stack, the Go return
value (number of pushed results), transport connect attempts, and whether
the wait-for-IDE step ran. -/
structure ConnectResult where
  openConn : Nat
  facade : Facade
  pushed : List LValue
  ret : Nat
  connectAttempts : Nat
  waited : Bool
deriving DecidableEq, Repr

/-- Facade.Connect: compare-and-swap on the process-wide openConn guard
(0 to 1); when the swap succeeds, run TcpConnect and on error push false and
the error message (returning 2 values); otherwise fall through and push true
(returning 1 value). When the guard is already held the swap fails and the
body is skipped entirely. -/
def Connect (openConn : Nat) (f : Facade) (L : Nat)
    (connectErr : Option String) : ConnectResult :=
  if openConn = 0 then
    let r := TcpConnect f L connectErr
    match r.err with
    | some e =>
        { openConn := 1, facade := r.facade
          pushed := [LValue.lfalse, LValue.lstring e], ret := 2
          connectAttempts := r.connectAttempts, waited := r.waited }
    | none =>
        { openConn := 1, facade := r.facade
          pushed := [LValue.ltrue], ret := 1
          connectAttempts := r.connectAttempts, waited := r.waited }
  else
    { openConn := openConn, facade := f
      pushed := [LValue.ltrue], ret := 1
      connectAttempts := 0, waited := false }

/-- Result of Facade.Close. -/
structure CloseResult where
  openConn : Nat
  facade : Facade
  transportClosed : Bool
  err : Option String
deriving DecidableEq, Repr

/-- Facade.Close: when a transport is present, store 0 into the openConn
guard, set the attached-state map to nil and close the transport (returning
whatever the transport close returns, here the oracle `tCloseErr`);
otherwise do nothing and return nil. -/
def Close (openConn : Nat) (f : Facade) (tCloseErr : Option String) :
    CloseResult :=
  match f.t with
  | some tr =>
      { openConn := 0
        facade := { f with states := none
                           t := some { tr with closed := true } }
        transportClosed := true
        err := tCloseErr }
  | none =>
      { openConn := openConn, facade := f
        transportClosed := false, err := none }

/-- An observable effect of one Facade.HandleMsg call: which request handler
the switch forwards the payload to, or a log line. -/
inductive DispatchEffect
  | invokeOnInitReq
  | invokeOnReadyReq
  | invokeOnAddBreakPointReq
  | invokeOnRemoveBreakPointReq
  | invokeOnActionReq
  | invokeOnEvalReq
  | log (s : String)
deriving DecidableEq, BEq, Repr

/-- Facade.HandleMsg: a switch on the numeric command id forwarding to the
matching handler. The switch has no default case, so a command id matching
none of the six request ids produces no effect at all. -/
def HandleMsg (cmd : Nat) : List DispatchEffect :=
  if cmd = MsgIdInitReq then [DispatchEffect.invokeOnInitReq]
  else if cmd = MsgIdReadyReq then [DispatchEffect.invokeOnReadyReq]
  else if cmd = MsgIdAddBreakPointReq then
    [DispatchEffect.invokeOnAddBreakPointReq]
  else if cmd = MsgIdRemoveBreakPointReq then
    [DispatchEffect.invokeOnRemoveBreakPointReq]
  else if cmd = MsgIdActionReq then [DispatchEffect.invokeOnActionReq]
  else if cmd = MsgIdEvalReq then [DispatchEffect.invokeOnEvalReq]
  else []

/-- The transport receive loop invoking HandleMsg once per inbound message,
in order. -/
def dispatchAll (cmds : List Nat) : List (List DispatchEffect) :=
  cmds.map HandleMsg

/-- An engine-side variable of a captured stack frame. Modelled from the
spec: the engine Variable carries a name, a serialized value and a type tag
(the engine source is not included here; OnBreak only forwards these values
through toProto). -/
structure Variable where
  name : String
  value : String
  valueType : Nat
deriving DecidableEq, Repr

/-- The wire-format variable produced by Variable.toProto. -/
structure ProtoVariable where
  name : String
  value : String
  valueType : Nat
deriving DecidableEq, Repr

/-- Variable.toProto: serializes an engine variable to its wire form.
Modelled from the spec as the field-for-field translation OnBreak relies
on. -/
def Variable.toProto (v : Variable) : ProtoVariable :=
  { name := v.name, value := v.value, valueType := v.valueType }

/-- An engine stack frame as returned by dbg.GetStacks, with its two
distinct ordered variable sequences. -/
structure Stack where
  Level : Nat
  File : String
  FunctionName : String
  Line : Nat
  LocalVariables : List Variable
  UpvalueVariables : List Variable
deriving DecidableEq, Repr

/-- The wire-format stack frame inside a BreakNotify. -/
structure ProtoStack where
  Level : Nat
  File : String
  FunctionName : String
  Line : Nat
  LocalVariables : List ProtoVariable
  UpvalueVariables : List ProtoVariable
deriving DecidableEq, Repr

/-- The outbound BreakNotify message. -/
structure BreakNotify where
  Cmd : Nat
  Stacks : List ProtoStack
deriving DecidableEq, Repr

/-- The per-frame loop body of Facade.OnBreak: both sequences start empty;
the first range loop appends each local variable's proto form to
LocalVariables, and the second range loop (over UpvalueVariables) also
appends to s.LocalVariables, exactly as the source does. -/
def buildProtoStack (stack : Stack) : ProtoStack :=
  { Level := stack.Level
    File := stack.File
    FunctionName := stack.FunctionName
    Line := stack.Line
    LocalVariables :=
      stack.LocalVariables.map Variable.toProto ++
        stack.UpvalueVariables.map Variable.toProto
    UpvalueVariables := [] }

/-- Facade.OnBreak: builds the BreakNotify for the captured stacks and hands
it to the transport (one Send per call). -/
def OnBreak (frames : List Stack) : BreakNotify :=
  { Cmd := MsgIdBreakNotify, Stacks := frames.map buildProtoStack }

/-- An engine breakpoint, as constructed by Facade.OnAddBreakPointReq. -/
structure BreakPoint where
  File : String
  Condition : String
  Line : Nat
deriving DecidableEq, Repr

/-- A breakpoint entry of the inbound AddBreakPointReq. -/
structure ProtoBreakPoint where
  File : String
  Condition : String
  Line : Nat
deriving DecidableEq, Repr

/-- The inbound AddBreakPointReq payload. -/
structure AddBreakPointReq where
  Clear : Bool
  BreakPoints : List ProtoBreakPoint
deriving DecidableEq, Repr

/-- The registry key of a breakpoint: the pair of file and line. -/
def bpKey (bp : BreakPoint) : String × Nat := (bp.File, bp.Line)

/-- Debugger.AddBreakPoint. Modelled from the spec: the engine's registry
maps the key (File, Line) to a BreakPoint and insert with an existing key
replaces the stored entry (keys stay unique); the engine source is not
included here. The registry is a key-unique association list. -/
def AddBreakPoint (r : List BreakPoint) (bp : BreakPoint) :
    List BreakPoint :=
  if r.any (fun b => b.File == bp.File && b.Line == bp.Line) then
    r.map (fun b => if b.File == bp.File && b.Line == bp.Line then bp else b)
  else
    r ++ [bp]

/-- Debugger.RemoveAllBreakpoints. Modelled from the spec: clear-all on the
registry. -/
def RemoveAllBreakpoints (_ : List BreakPoint) : List BreakPoint := []

/-- Facade.OnAddBreakPointReq: when the Clear flag is set, first remove all
breakpoints; then insert each breakpoint of the request in order. -/
def OnAddBreakPointReq (r : List BreakPoint) (req : AddBreakPointReq) :
    List BreakPoint :=
  let r1 := if req.Clear then RemoveAllBreakpoints r else r
  req.BreakPoints.foldl
    (fun acc bpProto =>
      AddBreakPoint acc
        { File := bpProto.File, Condition := bpProto.Condition
          Line := bpProto.Line })
    r1

/-- An event observed by the cancellation watcher's inner loop: a ticker
tick or a value on the waitDone channel. -/
inductive WatchEvent
  | tick
  | done
deriving DecidableEq, BEq, Repr

/-- The inner loop of Facade.stopWaitIDEIfContextCanceled, run after the
context's Done channel fired: each tick fires one cond.Broadcast and the
loop continues; a waitDone receipt returns. The result is the number of
broadcasts fired and whether the loop returned within the given events. -/
def watcherLoop : List WatchEvent → Nat × Bool
  | [] => (0, false)
  | WatchEvent.tick :: rest =>
      ((watcherLoop rest).1 + 1, (watcherLoop rest).2)
  | WatchEvent.done :: _ => (0, true)

/-- Facade.stopWaitIDEIfContextCanceled: blocks in a select on the context's
Done channel; once cancellation has fired it creates the 100 ms ticker and
runs the broadcast loop over the observed events. -/
def stopWaitIDEIfContextCanceled (cancelFired : Bool)
    (evs : List WatchEvent) : Nat × Bool :=
  if cancelFired then watcherLoop evs else (0, false)

/-- The ticker period used by the cancellation watcher, in milliseconds. -/
def tickerIntervalMs : Nat := 100

/-- The time at which the watcher fires its k-th broadcast (counting from
zero), for a ticker created when cancellation was observed at time
`cancelTime`: a Go ticker first fires one full period after creation. -/
def tickTime (cancelTime k : Nat) : Nat :=
  cancelTime + tickerIntervalMs * (k + 1)

/-- Key membership in the breakpoint registry. -/
def keyMem (k : String × Nat) (r : List BreakPoint) : Prop :=
  ∃ b ∈ r, bpKey b = k

/-- The boolean key test used by AddBreakPoint agrees with key equality. -/
theorem bp_match_iff (b bp : BreakPoint) :
    (b.File == bp.File && b.Line == bp.Line) = true ↔ bpKey b = bpKey bp := by
  simp [bpKey, Prod.ext_iff]

/-- Inserting a breakpoint adds exactly its key to the registry's key set. -/
theorem keyMem_addBreakPoint (k : String × Nat) (r : List BreakPoint)
    (bp : BreakPoint) :
    keyMem k (AddBreakPoint r bp) ↔ keyMem k r ∨ bpKey bp = k := by
  unfold AddBreakPoint
  by_cases hany :
      r.any (fun b => b.File == bp.File && b.Line == bp.Line) = true
  · rw [if_pos hany]
    obtain ⟨b0, hb0mem, hb0⟩ := List.any_eq_true.mp hany
    have hb0key : bpKey b0 = bpKey bp := (bp_match_iff b0 bp).mp hb0
    constructor
    · rintro ⟨b, hb, hkey⟩
      obtain ⟨a, ha, rfl⟩ := List.mem_map.mp hb
      by_cases hc : (a.File == bp.File && a.Line == bp.Line) = true
      · rw [if_pos hc] at hkey
        right; exact hkey
      · rw [if_neg hc] at hkey
        left; exact ⟨a, ha, hkey⟩
    · rintro (⟨b, hb, hkey⟩ | hkey)
      · by_cases hc : (b.File == bp.File && b.Line == bp.Line) = true
        · refine ⟨bp, ?_, ?_⟩
          · exact List.mem_map.mpr ⟨b, hb, by rw [if_pos hc]⟩
          · rw [← (bp_match_iff b bp).mp hc]; exact hkey
        · exact ⟨b, List.mem_map.mpr ⟨b, hb, by rw [if_neg hc]⟩, hkey⟩
      · refine ⟨bp, List.mem_map.mpr ⟨b0, hb0mem, by rw [if_pos hb0]⟩, hkey⟩
  · rw [if_neg hany]
    constructor
    · rintro ⟨b, hb, hkey⟩
      rcases List.mem_append.mp hb with hb | hb
      · exact Or.inl ⟨b, hb, hkey⟩
      · right
        rw [List.mem_singleton.mp hb] at hkey
        exact hkey
    · rintro (⟨b, hb, hkey⟩ | hkey)
      · exact ⟨b, List.mem_append.mpr (Or.inl hb), hkey⟩
      · exact ⟨bp, List.mem_append.mpr (Or.inr (List.mem_singleton.mpr rfl)),
          hkey⟩

/-- Folding the request's breakpoints over AddBreakPoint yields exactly the
keys of the accumulator together with the keys of the request list. -/
theorem keyMem_foldl (bps : List ProtoBreakPoint) (r : List BreakPoint)
    (k : String × Nat) :
    keyMem k (bps.foldl
        (fun acc p =>
          AddBreakPoint acc
            { File := p.File, Condition := p.Condition, Line := p.Line }) r) ↔
      keyMem k r ∨ ∃ p ∈ bps, (p.File, p.Line) = k := by
  induction bps generalizing r with
  | nil => simp
  | cons p rest ih =>
      rw [List.foldl_cons, ih, keyMem_addBreakPoint]
      constructor
      · rintro ((h | h) | h)
        · exact Or.inl h
        · exact Or.inr ⟨p, List.mem_cons_self p rest, h⟩
        · obtain ⟨q, hq, hk⟩ := h
          exact Or.inr ⟨q, List.mem_cons_of_mem p hq, hk⟩
      · rintro (h | ⟨q, hq, hk⟩)
        · exact Or.inl (Or.inl h)
        · rcases List.mem_cons.mp hq with rfl | hq
          · exact Or.inl (Or.inr hk)
          · exact Or.inr ⟨q, hq, hk⟩

/-- The watcher loop returns as soon as the done signal is among the
observed events. -/
theorem watcherLoop_done (evs : List WatchEvent)
    (h : WatchEvent.done ∈ evs) : (watcherLoop evs).2 = true := by
  induction evs with
  | nil => cases h
  | cons e rest ih =>
      cases e with
      | tick =>
          have : WatchEvent.done ∈ rest := by
            rcases List.mem_cons.mp h with h | h
            · cases h
            · exact h
          simp [watcherLoop, ih this]
      | done => rfl

/-- Claim C1: when the process-wide exclusive guard is already held
(openConn is nonzero), Connect skips the transport open and the
wait-for-IDE step entirely, pushes true and returns one value, and leaves
both the guard and the facade state unchanged. -/
theorem connect_guard_held_reports_success (oc : Nat) (f : Facade) (L : Nat)
    (connectErr : Option String) (h : oc ≠ 0) :
    Connect oc f L connectErr =
      { openConn := oc, facade := f, pushed := [LValue.ltrue], ret := 1
        connectAttempts := 0, waited := false } := by
  unfold Connect
  rw [if_neg h]

/-- Witness for C1 at openConn = 1 with a fresh facade. -/
theorem connect_guard_held_reports_success_witness :
    Connect 1 newFacade 7 none =
      { openConn := 1, facade := newFacade, pushed := [LValue.ltrue], ret := 1
        connectAttempts := 0, waited := false } :=
  connect_guard_held_reports_success 1 newFacade 7 none (by decide)

/-- Claim C2: when the guard is acquired (openConn was 0) and the transport
open fails with message e, Connect pushes false and the error message and
returns two values, the transport connect was attempted exactly once (no
retry), the wait-for-IDE step is not reached, and the guard remains held
(openConn stays 1). -/
theorem connect_transport_failure (f : Facade) (L : Nat) (e : String) :
    (Connect 0 f L (some e)).pushed = [LValue.lfalse, LValue.lstring e] ∧
    (Connect 0 f L (some e)).ret = 2 ∧
    (Connect 0 f L (some e)).connectAttempts = 1 ∧
    (Connect 0 f L (some e)).waited = false ∧
    (Connect 0 f L (some e)).openConn = 1 :=
  ⟨rfl, rfl, rfl, rfl, rfl⟩

/-- Claim C3 (code bug): evaluating OnBreak at a single frame that has no
local variables and exactly one upvalue shows the upvalue's wire form filed
under the frame's LocalVariables sequence while UpvalueVariables is sent
empty: the second range loop of the source appends to s.LocalVariables
instead of s.UpvalueVariables, although it initializes the UpvalueVariables
field it never fills. -/
theorem onBreak_upvalue_misfiled :
    OnBreak
        [{ Level := 0, File := "x.lua", FunctionName := "f", Line := 3
           LocalVariables := []
           UpvalueVariables := [{ name := "u", value := "1", valueType := 0 }] }] =
      { Cmd := MsgIdBreakNotify
        Stacks :=
          [{ Level := 0, File := "x.lua", FunctionName := "f", Line := 3
             LocalVariables := [{ name := "u", value := "1", valueType := 0 }]
             UpvalueVariables := [] }] } := rfl

/-- Claim C4: handling an AddBreakPointReq whose clear flag is set first
empties the registry and then inserts the request's breakpoints, so the
resulting registry does not depend on the prior registry and its key set is
exactly the key set of the request list; in particular the registry holding
breakpoints at (a.lua, 10) and (b.lua, 20) becomes exactly the one
breakpoint (c.lua, 5). -/
theorem onAddBreakPointReq_clear_replaces (r : List BreakPoint)
    (bps : List ProtoBreakPoint) :
    (∀ k, keyMem k (OnAddBreakPointReq r { Clear := true, BreakPoints := bps }) ↔
        ∃ p ∈ bps, (p.File, p.Line) = k) ∧
    OnAddBreakPointReq r { Clear := true, BreakPoints := bps } =
      OnAddBreakPointReq [] { Clear := false, BreakPoints := bps } ∧
    OnAddBreakPointReq
        [{ File := "a.lua", Condition := "", Line := 10 },
         { File := "b.lua", Condition := "", Line := 20 }]
        { Clear := true
          BreakPoints := [{ File := "c.lua", Condition := "", Line := 5 }] } =
      [{ File := "c.lua", Condition := "", Line := 5 }] := by
  refine ⟨?_, rfl, rfl⟩
  intro k
  rw [show OnAddBreakPointReq r { Clear := true, BreakPoints := bps } =
      bps.foldl
        (fun acc p =>
          AddBreakPoint acc
            { File := p.File, Condition := p.Condition, Line := p.Line }) []
    from rfl]
  rw [keyMem_foldl]
  simp [keyMem]

/-- Claim C5: once the cancellation signal has fired (also when it had
already fired when Connect was called), the watcher's ticker fires its
first broadcast exactly one polling interval (100 ms) after cancellation
was observed — so a waiter blocked in the wait is woken within one
interval — consecutive forced broadcasts are one interval apart, and the
watcher keeps broadcasting until the waiter reports done, at which point
the loop returns. -/
theorem cancellation_resolves_within_interval (c k : Nat)
    (evs : List WatchEvent) (h : WatchEvent.done ∈ evs) :
    tickTime c 0 - c = tickerIntervalMs ∧
    tickTime c 0 ≤ c + tickerIntervalMs ∧
    tickTime c (k + 1) - tickTime c k = tickerIntervalMs ∧
    (stopWaitIDEIfContextCanceled true evs).2 = true := by
  refine ⟨?_, ?_, ?_, ?_⟩
  · simp [tickTime, tickerIntervalMs]
  · simp [tickTime, tickerIntervalMs]
  · simp [tickTime, tickerIntervalMs]
    ring_nf
    omega
  · simpa [stopWaitIDEIfContextCanceled] using watcherLoop_done evs h

/-- Witness for C5 at cancellation time 0 with the done signal as the first
observed event. -/
theorem cancellation_resolves_within_interval_witness :
    tickTime 0 0 - 0 = tickerIntervalMs ∧
    tickTime 0 0 ≤ 0 + tickerIntervalMs ∧
    tickTime 0 1 - tickTime 0 0 = tickerIntervalMs ∧
    (stopWaitIDEIfContextCanceled true [WatchEvent.done]).2 = true :=
  cancellation_resolves_within_interval 0 0 [WatchEvent.done]
    (List.mem_singleton.mpr rfl)

/-- Claim C6: when a wait is already in progress or the IDE is already
ready, WaiteIDE does not block on the condition variable and returns
immediately, its whole trace being the single send on the done channel. -/
theorem waiteIDE_noop_when_waiting_or_ready (f : Facade) (force : Bool)
    (h : f.isWaitingForIDE = true ∨ f.isIDEReady = true) :
    WaiteIDE f force = [WEvent.sendDone] ∧
    WEvent.condWait ∉ WaiteIDE f force := by
  have hcond :
      (f.t.isSome && force && !f.isWaitingForIDE && !f.isIDEReady) = false := by
    rcases h with h | h <;> simp [h]
  unfold WaiteIDE
  rw [hcond]
  exact ⟨by simp, by simp⟩

/-- Witness for C6 on a facade already waiting for the IDE. -/
theorem waiteIDE_noop_when_waiting_or_ready_witness :
    WaiteIDE { newFacade with isWaitingForIDE := true } true =
        [WEvent.sendDone] ∧
    WEvent.condWait ∉ WaiteIDE { newFacade with isWaitingForIDE := true } true :=
  waiteIDE_noop_when_waiting_or_ready
    { newFacade with isWaitingForIDE := true } true (Or.inl rfl)

/-- Claim C7: with no transport assigned, Close changes nothing and returns
no error; with a transport assigned, Close stores 0 into the openConn
guard, sets the attached-state map to nil and closes the transport. -/
theorem close_idempotent (oc : Nat) (f : Facade) (e : Option String) :
    (f.t = none →
      Close oc f e =
        { openConn := oc, facade := f, transportClosed := false
          err := none }) ∧
    (∀ tr, f.t = some tr →
      Close oc f e =
        { openConn := 0
          facade := { f with states := none
                             t := some { tr with closed := true } }
          transportClosed := true
          err := e }) := by
  constructor
  · intro h
    unfold Close
    rw [h]
  · intro tr h
    unfold Close
    rw [h]

/-- Witness for C7, applying the theorem on a facade without a transport
(the already-closed no-op branch) and on one holding a fresh transport. -/
theorem close_idempotent_witness :
    Close 1 newFacade none =
      { openConn := 1, facade := newFacade, transportClosed := false
        err := none } ∧
    Close 1 { newFacade with t := some { handlerInstalled := true, closed := false } }
        none =
      { openConn := 0
        facade := { newFacade with states := none
                                   t := some { handlerInstalled := true
                                               closed := true } }
        transportClosed := true
        err := none } :=
  ⟨(close_idempotent 1 newFacade none).1 rfl,
   (close_idempotent 1
      { newFacade with t := some { handlerInstalled := true, closed := false } }
      none).2 { handlerInstalled := true, closed := false } rfl⟩

/-- Claim C8 counterexample: at the unknown command id 999 the dispatcher's
effect list is empty — the switch has no default case, so the message is
dropped without any log effect, contrary to the claim that unknown ids are
logged. -/
theorem handleMsg_unknown_not_logged : HandleMsg 999 = [] := rfl

/-- Claim C8 as amended: an inbound message whose command id matches none
of the six known request ids is silently dropped (the dispatcher invokes no
handler and emits no log, the switch having no default case), the dispatch
is never fatal, and subsequent messages continue to be dispatched
normally. -/
theorem handleMsg_unknown_dropped (cmd : Nat) (rest : List Nat)
    (h : cmd ≠ MsgIdInitReq ∧ cmd ≠ MsgIdReadyReq ∧
         cmd ≠ MsgIdAddBreakPointReq ∧ cmd ≠ MsgIdRemoveBreakPointReq ∧
         cmd ≠ MsgIdActionReq ∧ cmd ≠ MsgIdEvalReq) :
    HandleMsg cmd = [] ∧
    dispatchAll (cmd :: rest) = [] :: dispatchAll rest := by
  obtain ⟨h1, h2, h3, h4, h5, h6⟩ := h
  have hm : HandleMsg cmd = [] := by
    unfold HandleMsg
    rw [if_neg h1, if_neg h2, if_neg h3, if_neg h4, if_neg h5, if_neg h6]
  exact ⟨hm, by simp [dispatchAll, hm]⟩

/-- Witness for C8 at command id 999 followed by a ReadyReq. -/
theorem handleMsg_unknown_dropped_witness :
    HandleMsg 999 = [] ∧
    dispatchAll (999 :: [MsgIdReadyReq]) = [] :: dispatchAll [MsgIdReadyReq] :=
  handleMsg_unknown_dropped 999 [MsgIdReadyReq] (by decide)

/-- Claim C9: every WaiteIDE call sends exactly one value on the done
channel, on the blocking path as well as the no-op path, and a watcher that
receives the done signal terminates its broadcast loop. -/
theorem waiteIDE_sends_done_once (f : Facade) (force : Bool)
    (evs : List WatchEvent) (h : WatchEvent.done ∈ evs) :
    (WaiteIDE f force).count WEvent.sendDone = 1 ∧
    (watcherLoop evs).2 = true := by
  constructor
  · unfold WaiteIDE
    split
    · rfl
    · rfl
  · exact watcherLoop_done evs h

/-- Witness for C9 on a fresh facade and a watcher that sees the done
signal immediately. -/
theorem waiteIDE_sends_done_once_witness :
    (WaiteIDE newFacade true).count WEvent.sendDone = 1 ∧
    (watcherLoop [WatchEvent.done]).2 = true :=
  waiteIDE_sends_done_once newFacade true [WatchEvent.done]
    (List.mem_singleton.mpr rfl)

/-- Claim C10: TcpConnect registers the calling handle in the attached map
and installs a fresh transport (handler set) before dialing, so when the
dial fails the transport field is non-nil and the handle is attached, and a
subsequent Close takes the open-session branch: it closes the transport and
stores 0 into the guard. -/
theorem tcpConnect_mutates_before_dial (f : Facade) (L : Nat) (e : String)
    (l : List Nat) (oc : Nat) (ce : Option String) (h : f.states = some l) :
    (TcpConnect f L (some e)).err = some e ∧
    (TcpConnect f L (some e)).facade.t =
      some { handlerInstalled := true, closed := false } ∧
    (TcpConnect f L (some e)).facade.states =
      some (if L ∈ l then l else l ++ [L]) ∧
    L ∈ (if L ∈ l then l else l ++ [L]) ∧
    (Close oc (TcpConnect f L (some e)).facade ce).transportClosed = true ∧
    (Close oc (TcpConnect f L (some e)).facade ce).openConn = 0 := by
  refine ⟨rfl, rfl, ?_, ?_, rfl, rfl⟩
  · simp [TcpConnect, statesInsert, h]
  · by_cases hm : L ∈ l
    · rw [if_pos hm]; exact hm
    · rw [if_neg hm]
      exact List.mem_append.mpr (Or.inr (List.mem_singleton.mpr rfl))

/-- Witness for C10: a failing dial from a fresh facade leaves the
transport assigned and the handle attached, and Close then closes it. -/
theorem tcpConnect_mutates_before_dial_witness :
    (TcpConnect newFacade 7 (some "dial error")).err = some "dial error" ∧
    (TcpConnect newFacade 7 (some "dial error")).facade.t =
      some { handlerInstalled := true, closed := false } ∧
    (TcpConnect newFacade 7 (some "dial error")).facade.states =
      some (if 7 ∈ ([] : List Nat) then [] else [] ++ [7]) ∧
    7 ∈ (if 7 ∈ ([] : List Nat) then ([] : List Nat) else [] ++ [7]) ∧
    (Close 1 (TcpConnect newFacade 7 (some "dial error")).facade
        none).transportClosed = true ∧
    (Close 1 (TcpConnect newFacade 7 (some "dial error")).facade
        none).openConn = 0 :=
  tcpConnect_mutates_before_dial newFacade 7 "dial error" [] 1 none rfl

end GopherluaDebugger
